import Mathlib

/-!
Verification of the HR RAG chatbot pipeline.

The Python sources are shallowly embedded here:
- `src/utils/pdf_processor.py`: `split_text_into_chunks` (character-window
  chunker) and `process_pdf` (per-page chunking + per-chunk embedding with
  try/except failure isolation);
- `src/utils/generator.py`: `generate_answer` (context guard + chat call);
- `src/flask_chatbot.py`: the `POST /answer` handler `answer_question`;
- `src/rag_chatbot.py`: the CLI `answer_question`.

Modelling conventions: Python strings are `List Char`; a fallible external
call (embedding, chat completion) is a function into `Option`/`Except`
supplied as a parameter; the Python `while` loop of the chunker is embedded
as a fuel-indexed loop (`none` = the loop did not finish within the given
fuel), with a total wrapper; the embeddings of the request handlers also
return call counters for the retriever and chat model so that
"never calls X" claims are statable.
-/

/-- Python whitespace test used by `str.strip()` / `str.split()`, modelled by
`Char.isWhitespace`. -/
def pyWhitespace (c : Char) : Bool := c.isWhitespace

/-- Python `s.strip()`: remove leading and trailing whitespace. -/
def trimWS (s : List Char) : List Char :=
  ((s.dropWhile pyWhitespace).reverse.dropWhile pyWhitespace).reverse

/-- Truthiness of `chunk.strip()` in `if chunk.strip():`
(pdf_processor.py line 190): the chunk is non-empty after trimming. -/
def stripNonempty (s : List Char) : Bool := !(trimWS s).isEmpty

/-- Python `s.lower()`, character-wise. -/
def lowerStr (s : List Char) : List Char := s.map Char.toLower

/-- Helper for `words`: accumulate the current (reversed) word. -/
def wordsAux : List Char → List Char → List (List Char)
  | [], acc => if acc.isEmpty then [] else [acc.reverse]
  | c :: cs, acc =>
    if pyWhitespace c then
      if acc.isEmpty then wordsAux cs [] else acc.reverse :: wordsAux cs []
    else wordsAux cs (c :: acc)

/-- Python `s.split()` with no separator: maximal runs of non-whitespace. -/
def words (s : List Char) : List (List Char) := wordsAux s []

/-- Python `s.split(sep)` for a one-character separator `sep`
(used as `context.split(".")` and `pdf_path.split("/")`). -/
def splitOnSep (sep : Char) : List Char → List (List Char)
  | [] => [[]]
  | c :: cs =>
    match splitOnSep sep cs with
    | [] => [[c]]
    | h :: t => if c = sep then [] :: h :: t else (c :: h) :: t

/-- Python substring test `needle in hay`. -/
def containsSub (needle hay : List Char) : Bool :=
  hay.tails.any (fun t => needle.isPrefixOf t)

/-! ## Chunker (`split_text_into_chunks`, pdf_processor.py lines 172-198)

```python
chunks = []
start = 0
text_length = len(text)
while start < text_length:
    end = start + chunk_size
    chunk = text[start:end]
    if chunk.strip():
        chunks.append(chunk)
    start += chunk_size - overlap
return chunks
```
-/

/-- One fuel tick per loop iteration; `none` means the loop did not reach
`start >= text_length` within `fuel` iterations (for `overlap >= chunk_size`
the Python loop never does). `chunk_size - overlap` is the Python step;
for `overlap < chunk_size` the natural subtraction agrees with Python. -/
def splitLoop : Nat → List Char → Nat → Nat → Nat → Option (List (List Char))
  | 0, _, _, _, _ => none
  | fuel + 1, text, chunk_size, overlap, start =>
    if start < text.length then
      let chunk := (text.drop start).take chunk_size
      (splitLoop fuel text chunk_size overlap (start + (chunk_size - overlap))).map
        (fun rest => if stripNonempty chunk then chunk :: rest else rest)
    else some []

/-- `split_text_into_chunks(text, chunk_size, overlap)`. `text.length + 1`
fuel always suffices when `overlap < chunk_size`
(theorem `splitLoop_isSome`). -/
def split_text_into_chunks (text : List Char) (chunk_size overlap : Nat) :
    List (List Char) :=
  (splitLoop (text.length + 1) text chunk_size overlap 0).getD []

/-- Ceiling division on naturals, vocabulary for the chunk-count claims. -/
def ceilDiv (a b : Nat) : Nat := (a + b - 1) / b

/-- The `k`-th window of the chunker: `text[k*(S-O) : k*(S-O)+S]`. -/
def window (text : List Char) (chunk_size overlap k : Nat) : List Char :=
  (text.drop (k * (chunk_size - overlap))).take chunk_size

/-- Number of window start offsets `k*(S-O)` that lie inside the text. -/
def numWindows (text : List Char) (chunk_size overlap : Nat) : Nat :=
  ceilDiv text.length (chunk_size - overlap)

/-! ## Ingestion (`process_pdf`, pdf_processor.py lines 244-310) -/

/-- One stored chunk record, as assembled in `process_pdf`. The embedding
type `E` is abstract (the real one is a float vector from Azure). -/
structure EmbeddedDocument (E : Type) where
  content : List Char
  embedding : E
  source : List Char
  page : Nat
  chunk_index : Nat
deriving DecidableEq

/-- Inner loop of `process_pdf` over the chunks of one page. `embed` models
`self.generate_embedding`: `none` is a raised exception, caught by the
`try/except` which skips that chunk; on success a document is appended and
`chunk_counter` is incremented. Returns the documents and the final
counter. -/
def processChunksLoop {E : Type} (embed : List Char → Option E)
    (src : List Char) (page_num : Nat) :
    List (List Char) → Nat → List (EmbeddedDocument E) × Nat
  | [], counter => ([], counter)
  | c :: rest, counter =>
    match embed c with
    | some emb =>
      let r := processChunksLoop embed src page_num rest (counter + 1)
      (⟨c, emb, src, page_num, counter⟩ :: r.1, r.2)
    | none => processChunksLoop embed src page_num rest counter

/-- Outer loop of `process_pdf` over the extracted pages
(`page`, `text`) pairs, threading `chunk_counter` across pages. -/
def processPagesLoop {E : Type} (embed : List Char → Option E)
    (src : List Char) (chunk_size overlap : Nat) :
    List (Nat × List Char) → Nat → List (EmbeddedDocument E)
  | [], _ => []
  | (page_num, text) :: rest, counter =>
    let chunks := split_text_into_chunks text chunk_size overlap
    let r := processChunksLoop embed src page_num chunks counter
    r.1 ++ processPagesLoop embed src chunk_size overlap rest r.2

/-- `process_pdf(pdf_path, chunk_size, overlap)`. PDF text extraction is an
external collaborator, so the extracted `pages` list is a parameter. The
source field is `pdf_path.split("/")[-1]`. -/
def process_pdf {E : Type} (embed : List Char → Option E)
    (pdf_path : List Char) (pages : List (Nat × List Char))
    (chunk_size overlap : Nat) : List (EmbeddedDocument E) :=
  processPagesLoop embed ((splitOnSep ('/') pdf_path).getLastD [])
    chunk_size overlap pages 0

/-! ## Generator (`generate_answer`, generator.py lines 34-66) -/

/-- The fixed no-information sentence shared by all components. -/
def FIXED : List Char :=
  ("I don\x27t have that information in the available documents.").toList

/-- The system prompt of generator.py lines 45-50. -/
def systemPrompt : List Char :=
  ("You are an HR assistant. Answer based ONLY on the provided context. If the answer exists, give a clear, descriptive response in 2–3 sentences. If nothing relevant is found, say: \x27I don\x27t have that information in the available documents.\x27 Do not guess or invent details.").toList

/-- `GPTGenerator.generate_answer(query, context)`. `chat` models one
`chat.completions.create` call (system prompt, user prompt): `Except.error`
is a raised exception, caught and turned into an error string. The second
component counts chat-model calls. -/
def generate_answer (chat : List Char → List Char → Except (List Char) (List Char))
    (query context : List Char) : List Char × Nat :=
  if context.isEmpty || containsSub (("No relevant documents").toList) context then
    (FIXED, 0)
  else
    let user_prompt := ("Context:\n").toList ++ context ++
      ("\n\nQuestion: ").toList ++ query ++ ("\nAnswer:").toList
    match chat systemPrompt user_prompt with
    | Except.ok r => (trimWS r, 1)
    | Except.error e => (("Error generating answer: ").toList ++ e, 1)

/-! ## Answer composers (flask_chatbot.py / rag_chatbot.py) -/

/-- One retrieval result as consumed by the composers (`doc.get("content")`,
`doc.get("source")`). -/
structure SearchResult where
  content : List Char
  source : List Char
deriving DecidableEq

/-- The list comprehension shared by both composers:
`[s for s in context.split(".") if any(word in s.lower() for word in
query.lower().split())]`. -/
def relevantSentences (query context : List Char) : List (List Char) :=
  (splitOnSep ('.') context).filter
    (fun s => (words (lowerStr query)).any (fun w => containsSub w (lowerStr s)))

/-- The literal prefix of the fallback answer. -/
def foundIntro : List Char := ("Here’s what I found: ").toList

/-- The short-answer fallback (flask_chatbot.py lines 34-40, rag_chatbot.py
lines 16-21, identical logic in both files): an answer of fewer than 10
whitespace-separated words is discarded in favour of the first relevant
context sentence (formatted) or the fixed sentence. -/
def fallbackAnswer (query context answer : List Char) : List Char :=
  if (words answer).length < 10 then
    match relevantSentences query context with
    | s :: _ => foundIntro ++ trimWS s ++ [('.')]
    | [] => FIXED
  else answer

/-- Response of the Flask endpoint: HTTP 400 with an error body, or
HTTP 200 with answer and sources. -/
inductive FlaskResp
  | badRequest : List Char → FlaskResp
  | ok : List Char → List (List Char) → FlaskResp
deriving DecidableEq

/-- The sources component of a response (empty for an error response). -/
def respSources : FlaskResp → List (List Char)
  | FlaskResp.badRequest _ => []
  | FlaskResp.ok _ s => s

/-- The 400 error message. -/
def queryRequired : List Char := ("Query is required").toList

/-- `POST /answer` handler (flask_chatbot.py lines 15-44). The JSON body's
`query` field is `Option` (`none` = key absent, mirroring
`data.get("query", "")`). Returns the response together with the number of
retriever calls and of chat-model calls made. Python's `list({...})` set
comprehension over the sources is modelled by `List.dedup` (set semantics;
Python guarantees no particular order). -/
def flask_answer (retrieve : List Char → List SearchResult)
    (chat : List Char → List Char → Except (List Char) (List Char))
    (queryField : Option (List Char)) : FlaskResp × Nat × Nat :=
  let query := trimWS (queryField.getD [])
  if query.isEmpty then (FlaskResp.badRequest queryRequired, 0, 0)
  else
    let results := retrieve query
    if results.isEmpty then (FlaskResp.ok FIXED [], 1, 0)
    else
      let context := List.intercalate (("\n\n").toList) (results.map (fun d => d.content))
      let g := generate_answer chat query context
      let answer := fallbackAnswer query context g.1
      (FlaskResp.ok answer ((results.map (fun d => d.source)).dedup), 1, g.2)

/-- The literal header of the CLI sources block. -/
def sourcesHeader : List Char := ("\n\n**Sources:**\n").toList

/-- CLI `answer_question(query)` (rag_chatbot.py lines 7-24). Returns the
composed string and the number of chat-model calls. -/
def rag_answer (retrieve : List Char → List SearchResult)
    (chat : List Char → List Char → Except (List Char) (List Char))
    (query : List Char) : List Char × Nat :=
  let results := retrieve query
  if results.isEmpty then (FIXED, 0)
  else
    let context := List.intercalate (("\n\n").toList) (results.map (fun d => d.content))
    let g := generate_answer chat query context
    let answer := fallbackAnswer query context g.1
    (answer ++ sourcesHeader ++
      List.intercalate (("\n").toList) (results.map (fun d => d.source)), g.2)

/-! ## Concrete retriever / chat stubs used in witnesses and counterexamples -/

/-- Retriever stub returning no results. -/
def rtvEmpty : List Char → List SearchResult := fun _ => []

/-- Chat stub whose call raises (is caught as an error string). -/
def chtErr : List Char → List Char → Except (List Char) (List Char) :=
  fun _ _ => Except.error (("boom").toList)

/-- Retriever stub returning a single result. -/
def rtvOne : List Char → List SearchResult :=
  fun _ => [⟨("alpha beta").toList, ("a.pdf").toList⟩]

/-- Chat stub returning a 1-word answer (triggers the short-answer
fallback). -/
def chtShort : List Char → List Char → Except (List Char) (List Char) :=
  fun _ _ => Except.ok (("hi").toList)

/-- Retriever stub returning two results with the same source. -/
def rtvDup : List Char → List SearchResult :=
  fun _ => [⟨("alpha beta").toList, ("a.pdf").toList⟩,
            ⟨("gamma delta").toList, ("a.pdf").toList⟩]

/-- Chat stub returning a 10-word answer (no fallback). -/
def chtLong : List Char → List Char → Except (List Char) (List Char) :=
  fun _ _ => Except.ok (("w1 w2 w3 w4 w5 w6 w7 w8 w9 w10").toList)

/-! ## Chunker lemmas -/

theorem ceilDiv_zero_left (b : Nat) (hb : 0 < b) : ceilDiv 0 b = 0 := by
  unfold ceilDiv
  exact Nat.div_eq_of_lt (by omega)

theorem ceilDiv_step (a b : Nat) (ha : 0 < a) (hb : 0 < b) :
    ceilDiv a b = ceilDiv (a - b) b + 1 := by
  unfold ceilDiv
  rcases Nat.le_total a b with h | h
  · have h0 : a - b = 0 := by omega
    have e1 : a + b - 1 = (a - 1) + b := by omega
    rw [h0, e1, Nat.add_div_right _ hb, Nat.div_eq_of_lt (by omega),
      Nat.div_eq_of_lt (by omega)]
  · have e1 : a + b - 1 = ((a - b) + b - 1) + b := by omega
    rw [e1, Nat.add_div_right _ hb]

theorem lt_ceilDiv_iff (a b k : Nat) (hb : 0 < b) :
    k < ceilDiv a b ↔ k * b < a := by
  unfold ceilDiv
  rw [Nat.lt_iff_add_one_le, Nat.le_div_iff_mul_le hb, Nat.succ_mul]
  omega

theorem splitLoop_isSome (text : List Char) (chunk_size overlap : Nat)
    (h : overlap < chunk_size) :
    ∀ fuel start, text.length - start < fuel →
      (splitLoop fuel text chunk_size overlap start).isSome = true := by
  intro fuel
  induction fuel with
  | zero => intro start hf; omega
  | succ n ih =>
    intro start hf
    by_cases hs : start < text.length
    · have hrec := ih (start + (chunk_size - overlap)) (by omega)
      simp only [splitLoop, if_pos hs]
      cases hv : splitLoop n text chunk_size overlap (start + (chunk_size - overlap)) with
      | none => rw [hv] at hrec; simp at hrec
      | some rest => simp
    · simp [splitLoop, if_neg hs]

theorem splitLoop_eq (text : List Char) (chunk_size overlap : Nat)
    (h : overlap < chunk_size) :
    ∀ fuel start, text.length - start < fuel →
      splitLoop fuel text chunk_size overlap start =
        some (((List.range (ceilDiv (text.length - start) (chunk_size - overlap))).map
          (fun k => (text.drop (start + k * (chunk_size - overlap))).take chunk_size)).filter
            stripNonempty) := by
  intro fuel
  induction fuel with
  | zero => intro start hf; omega
  | succ n ih =>
    intro start hf
    have hb : 0 < chunk_size - overlap := by omega
    by_cases hs : start < text.length
    · have hrec := ih (start + (chunk_size - overlap)) (by omega)
      simp only [splitLoop, if_pos hs, hrec, Option.map_some']
      congr 1
      have hN : ceilDiv (text.length - start) (chunk_size - overlap) =
          ceilDiv (text.length - (start + (chunk_size - overlap))) (chunk_size - overlap) + 1 := by
        rw [ceilDiv_step _ _ (by omega) hb]
        have e : text.length - start - (chunk_size - overlap) =
            text.length - (start + (chunk_size - overlap)) := by omega
        rw [e]
      rw [hN, List.range_succ_eq_map, List.map_cons, List.map_map, List.filter_cons]
      have harg : ((fun k => (text.drop (start + k * (chunk_size - overlap))).take chunk_size) ∘
            Nat.succ) =
          (fun k => (text.drop (start + (chunk_size - overlap) + k * (chunk_size - overlap))).take
            chunk_size) := by
        funext k
        simp only [Function.comp_apply]
        congr 2
        rw [Nat.succ_mul]
        omega
      rw [harg]
      simp only [Nat.zero_mul, Nat.add_zero]
    · simp only [splitLoop, if_neg hs]
      have h0 : text.length - start = 0 := by omega
      rw [h0, ceilDiv_zero_left _ hb]
      simp

theorem split_eq_windows (text : List Char) (chunk_size overlap : Nat)
    (h : overlap < chunk_size) :
    split_text_into_chunks text chunk_size overlap =
      ((List.range (numWindows text chunk_size overlap)).map
        (window text chunk_size overlap)).filter stripNonempty := by
  unfold split_text_into_chunks numWindows
  rw [splitLoop_eq text chunk_size overlap h (text.length + 1) 0 (by omega)]
  simp only [Option.getD_some, Nat.sub_zero, Nat.zero_add]
  rfl

/-- C1: for every text, every chunkSize S > 0 and overlap O < S,
`split_text_into_chunks` returns exactly the windows
`text[k*(S-O) : k*(S-O)+S]` for the k with `k*(S-O) < len text`, keeping a
window iff it is non-empty after trimming whitespace; every chunk has length
at most S; and consecutive windows share exactly the O-character overlap
region where the text is long enough. -/
theorem C1_chunker_windows (text : List Char) (S O : Nat)
    (hS : 0 < S) (hO : O < S) :
    split_text_into_chunks text S O =
        ((List.range (numWindows text S O)).map (window text S O)).filter stripNonempty
    ∧ (∀ k, k < numWindows text S O ↔ k * (S - O) < text.length)
    ∧ (∀ c ∈ split_text_into_chunks text S O, c.length ≤ S)
    ∧ (∀ k, (window text S O k).drop (S - O) = (window text S O (k + 1)).take O)
    ∧ (∀ k, (k + 1) * (S - O) + O ≤ text.length →
        ((window text S O (k + 1)).take O).length = O) := by
  refine ⟨split_eq_windows text S O hO, ?_, ?_, ?_, ?_⟩
  · intro k
    exact lt_ceilDiv_iff _ _ _ (by omega)
  · intro c hc
    rw [split_eq_windows text S O hO] at hc
    obtain ⟨k, _, rfl⟩ := List.mem_map.mp (List.mem_of_mem_filter hc)
    unfold window
    rw [List.length_take]
    omega
  · intro k
    unfold window
    rw [List.drop_take, List.drop_drop, List.take_take]
    have e1 : S - (S - O) = O := by omega
    have e2 : (k + 1) * (S - O) = k * (S - O) + (S - O) := by
      rw [Nat.succ_mul]
    have e3 : O ⊓ S = O := Nat.min_eq_left (by omega)
    rw [e1, e2, e3]
  · intro k hk
    unfold window
    rw [List.take_take, List.length_take, List.length_drop]
    omega

theorem C1_chunker_windows_witness :
    (0 < 3) ∧ (1 < 3) ∧
    split_text_into_chunks (("ab cde").toList) 3 1 =
      ((List.range (numWindows (("ab cde").toList) 3 1)).map
        (window (("ab cde").toList) 3 1)).filter stripNonempty :=
  ⟨by decide, by decide,
    (C1_chunker_windows (("ab cde").toList) 3 1 (by decide) (by decide)).1⟩

/-- C2: for overlap < chunk_size the chunker loop terminates — the
fuel-indexed embedding of the `while` loop reaches its exit within
`text.length + 1` iterations on every input. -/
theorem C2_chunker_terminates (text : List Char) (chunk_size overlap : Nat)
    (h : overlap < chunk_size) :
    (splitLoop (text.length + 1) text chunk_size overlap 0).isSome = true :=
  splitLoop_isSome text chunk_size overlap h (text.length + 1) 0 (by omega)

theorem C2_chunker_terminates_witness :
    (1 < 3) ∧
    (splitLoop ((("hello").toList).length + 1) (("hello").toList) 3 1 0).isSome = true :=
  ⟨by decide, C2_chunker_terminates (("hello").toList) 3 1 (by decide)⟩

/-- C3 counterexample: the claimed count `⌈(L-O)/(S-O)⌉` is wrong. For the
5-character all-letter text with S = 2, O = 1 all claim hypotheses hold,
the code produces 5 chunks, but the formula gives ⌈(5-1)/(2-1)⌉ = 4. -/
theorem C3_count_counterexample :
    1 ≤ (List.replicate 5 'a').length ∧ 1 < 2 ∧
    (∀ k, k < numWindows (List.replicate 5 'a') 2 1 →
      stripNonempty (window (List.replicate 5 'a') 2 1 k) = true) ∧
    (split_text_into_chunks (List.replicate 5 'a') 2 1).length ≠
      ceilDiv ((List.replicate 5 'a').length - 1) (2 - 1) := by decide

/-- C3 amended: for a text of length L ≥ 1 with no whitespace-only windows
and O < S, the chunker yields exactly `⌈L/(S-O)⌉` (not `⌈(L-O)/(S-O)⌉`)
non-empty windows. -/
theorem C3_count_amended (text : List Char) (S O : Nat)
    (hL : 1 ≤ text.length) (hO : O < S)
    (hws : ∀ k, k < numWindows text S O →
      stripNonempty (window text S O k) = true) :
    (split_text_into_chunks text S O).length = ceilDiv text.length (S - O) := by
  rw [split_eq_windows text S O hO]
  have hall : ∀ a ∈ (List.range (numWindows text S O)).map (window text S O),
      stripNonempty a = true := by
    intro a ha
    obtain ⟨k, hk, rfl⟩ := List.mem_map.mp ha
    exact hws k (List.mem_range.mp hk)
  rw [List.filter_eq_self.mpr hall, List.length_map, List.length_range]
  rfl

theorem C3_count_amended_witness :
    1 ≤ (("abcde").toList).length ∧ 1 < 2 ∧
    (∀ k, k < numWindows (("abcde").toList) 2 1 →
        stripNonempty (window (("abcde").toList) 2 1 k) = true) ∧
    (split_text_into_chunks (("abcde").toList) 2 1).length =
      ceilDiv (("abcde").toList).length (2 - 1) :=
  ⟨by decide, by decide, by decide,
    C3_count_amended (("abcde").toList) 2 1 (by decide) (by decide) (by decide)⟩

/-! ## Ingestion lemmas -/

theorem processChunks_spec {E : Type} (embed : List Char → Option E)
    (src : List Char) (page_num : Nat) :
    ∀ (chunks : List (List Char)) (counter : Nat),
      (processChunksLoop embed src page_num chunks counter).1.map (fun d => d.content) =
        chunks.filter (fun c => (embed c).isSome)
      ∧ (processChunksLoop embed src page_num chunks counter).1.map (fun d => d.chunk_index) =
        List.range' counter (processChunksLoop embed src page_num chunks counter).1.length
      ∧ (processChunksLoop embed src page_num chunks counter).2 =
        counter + (processChunksLoop embed src page_num chunks counter).1.length
      ∧ (processChunksLoop embed src page_num chunks counter).1.map (fun d => embed d.content) =
        (processChunksLoop embed src page_num chunks counter).1.map (fun d => some d.embedding) := by
  intro chunks
  induction chunks with
  | nil => intro counter; simp [processChunksLoop]
  | cons c rest ih =>
    intro counter
    cases hemb : embed c with
    | some emb =>
      obtain ⟨ih1, ih2, ih3, ih4⟩ := ih (counter + 1)
      refine ⟨?_, ?_, ?_, ?_⟩
      · simp [processChunksLoop, hemb, ih1]
      · simp only [processChunksLoop, hemb, List.map_cons, List.length_cons, ih2]
        rw [List.range'_succ]
      · simp only [processChunksLoop, hemb, List.length_cons] at ih3 ⊢
        omega
      · simp [processChunksLoop, hemb, ih4]
    | none =>
      obtain ⟨ih1, ih2, ih3, ih4⟩ := ih counter
      refine ⟨?_, ?_, ?_, ?_⟩
      · simp [processChunksLoop, hemb, ih1]
      · simp [processChunksLoop, hemb, ih2]
      · simp [processChunksLoop, hemb, ih3]
      · simp [processChunksLoop, hemb, ih4]

theorem processPages_spec {E : Type} (embed : List Char → Option E)
    (src : List Char) (chunk_size overlap : Nat) :
    ∀ (pages : List (Nat × List Char)) (counter : Nat),
      (processPagesLoop embed src chunk_size overlap pages counter).map (fun d => d.content) =
        (pages.flatMap (fun p => split_text_into_chunks p.2 chunk_size overlap)).filter
          (fun c => (embed c).isSome)
      ∧ (processPagesLoop embed src chunk_size overlap pages counter).map (fun d => d.chunk_index) =
        List.range' counter (processPagesLoop embed src chunk_size overlap pages counter).length
      ∧ (processPagesLoop embed src chunk_size overlap pages counter).map (fun d => embed d.content) =
        (processPagesLoop embed src chunk_size overlap pages counter).map (fun d => some d.embedding) := by
  intro pages
  induction pages with
  | nil => intro counter; simp [processPagesLoop]
  | cons p rest ih =>
    intro counter
    obtain ⟨pn, txt⟩ := p
    obtain ⟨c1, c2, c3, c4⟩ := processChunks_spec embed src pn
      (split_text_into_chunks txt chunk_size overlap) counter
    obtain ⟨ih1, ih2, ih3⟩ := ih (processChunksLoop embed src pn
      (split_text_into_chunks txt chunk_size overlap) counter).2
    refine ⟨?_, ?_, ?_⟩
    · simp only [processPagesLoop, List.map_append, List.flatMap_cons, List.filter_append]
      rw [c1, ih1]
    · simp only [processPagesLoop, List.map_append, List.length_append]
      rw [c2, ih2, c3]
      have := List.range'_append counter
        (processChunksLoop embed src pn (split_text_into_chunks txt chunk_size overlap) counter).1.length
        (processPagesLoop embed src chunk_size overlap rest
          (processChunksLoop embed src pn (split_text_into_chunks txt chunk_size overlap) counter).2).length 1
      simp only [Nat.one_mul] at this
      rw [c3] at this
      rw [this, Nat.add_comm]
    · simp only [processPagesLoop, List.map_append]
      rw [c4, ih3]

theorem dropWhile_ws_replicate_a (n : Nat) :
    List.dropWhile pyWhitespace (List.replicate n 'a') = List.replicate n 'a' := by
  cases n with
  | zero => rfl
  | succ m =>
    rw [List.replicate_succ, List.dropWhile_cons]
    have h : pyWhitespace 'a' = false := by decide
    rw [h]
    simp

theorem stripNonempty_replicate_a (n : Nat) (h : 0 < n) :
    stripNonempty (List.replicate n 'a') = true := by
  unfold stripNonempty trimWS
  rw [dropWhile_ws_replicate_a, List.reverse_replicate, dropWhile_ws_replicate_a,
    List.reverse_replicate]
  cases n with
  | zero => omega
  | succ m =>
    rw [List.replicate_succ, List.isEmpty_cons]
    rfl

theorem split_replicate_2500 :
    split_text_into_chunks (List.replicate 2500 'a') 1000 200 =
      [List.replicate 1000 'a', List.replicate 1000 'a',
       List.replicate 900 'a', List.replicate 100 'a'] := by
  rw [split_eq_windows _ _ _ (by omega)]
  have h4 : numWindows (List.replicate 2500 'a') 1000 200 = 4 := by
    unfold numWindows
    rw [List.length_replicate]
    decide
  have hr : List.range 4 = [0, 1, 2, 3] := by rfl
  rw [h4, hr]
  simp only [List.map_cons, List.map_nil, window, List.drop_replicate, List.take_replicate]
  norm_num
  have s1 := stripNonempty_replicate_a 1000 (by omega)
  have s2 := stripNonempty_replicate_a 900 (by omega)
  have s3 := stripNonempty_replicate_a 100 (by omega)
  simp only [List.filter_cons, s1, s2, s3, if_true, List.filter_nil]
  exact ⟨trivial, trivial, trivial⟩

set_option maxRecDepth 100000 in
/-- C4: the documents of `process_pdf` carry chunk_index values 0,1,2,...
strictly increasing across the whole file (not reset at page boundaries),
for every input and embedding outcome; and on a single 2500-character page
with chunkSize 1000 and overlap 200 (all embeddings succeeding) it produces
exactly 4 documents, whose chunks start at offsets 0, 800, 1600, 2400, with
chunk_index 0,1,2,3 and identical source and page fields. -/
theorem C4_chunk_index_monotone :
    (∀ (E : Type) (embed : List Char → Option E) (pdf_path : List Char)
        (pages : List (Nat × List Char)) (chunk_size overlap : Nat),
      (process_pdf embed pdf_path pages chunk_size overlap).map (fun d => d.chunk_index) =
        List.range (process_pdf embed pdf_path pages chunk_size overlap).length)
    ∧ (process_pdf (fun _ => some ()) (("hr.pdf").toList)
          [(1, List.replicate 2500 'a')] 1000 200).map
          (fun d => (d.content, d.chunk_index, d.source, d.page)) =
        [(((List.replicate 2500 'a').drop 0).take 1000, 0, ("hr.pdf").toList, 1),
         (((List.replicate 2500 'a').drop 800).take 1000, 1, ("hr.pdf").toList, 1),
         (((List.replicate 2500 'a').drop 1600).take 1000, 2, ("hr.pdf").toList, 1),
         (((List.replicate 2500 'a').drop 2400).take 1000, 3, ("hr.pdf").toList, 1)] := by
  constructor
  · intro E embed pdf_path pages chunk_size overlap
    obtain ⟨-, h2, -⟩ := processPages_spec embed
      ((splitOnSep ('/') pdf_path).getLastD []) chunk_size overlap pages 0
    unfold process_pdf
    rw [h2, ← List.range_eq_range']
  · unfold process_pdf
    have hsrc : (splitOnSep ('/') (("hr.pdf").toList)).getLastD [] = ("hr.pdf").toList := by
      rfl
    rw [hsrc]
    simp only [processPagesLoop, split_replicate_2500]
    simp only [processChunksLoop, List.map_cons, List.map_nil, List.append_nil]
    simp only [List.drop_replicate, List.take_replicate]
    norm_num

/-- C7: a failing embedding call is caught and only that chunk is skipped:
`process_pdf` is total for every embedding outcome, its documents' contents
are exactly the chunks whose embedding succeeded (in order, across all
pages), and each stored embedding is the one the embedding call returned
for that chunk's content. -/
theorem C7_partial_failure :
    ∀ (E : Type) (embed : List Char → Option E) (pdf_path : List Char)
      (pages : List (Nat × List Char)) (chunk_size overlap : Nat),
      (process_pdf embed pdf_path pages chunk_size overlap).map (fun d => d.content) =
        (pages.flatMap (fun p => split_text_into_chunks p.2 chunk_size overlap)).filter
          (fun c => (embed c).isSome)
      ∧ (process_pdf embed pdf_path pages chunk_size overlap).map (fun d => embed d.content) =
        (process_pdf embed pdf_path pages chunk_size overlap).map (fun d => some d.embedding) := by
  intro E embed pdf_path pages chunk_size overlap
  obtain ⟨h1, -, h3⟩ := processPages_spec embed
    ((splitOnSep ('/') pdf_path).getLastD []) chunk_size overlap pages 0
  exact ⟨h1, h3⟩

/-! ## Composer claims -/

/-- C6: when the retriever returns no results, both the HTTP handler and the
CLI composer return exactly the fixed sentence with an empty sources list
and make zero chat-model calls. -/
theorem C6_empty_results (retrieve : List Char → List SearchResult)
    (chat : List Char → List Char → Except (List Char) (List Char))
    (q : List Char) (hq : trimWS q = q) (hne : q ≠ [])
    (hr : retrieve q = []) :
    flask_answer retrieve chat (some q) = (FlaskResp.ok FIXED [], 1, 0)
    ∧ rag_answer retrieve chat q = (FIXED, 0) := by
  have hq0 : q.isEmpty = false := by
    cases q with
    | nil => exact absurd rfl hne
    | cons a l => rfl
  constructor
  · unfold flask_answer
    simp only [Option.getD_some, hq, hq0, hr, Bool.false_eq_true, if_false, List.isEmpty_nil,
      if_true]
  · unfold rag_answer
    simp only [hr, List.isEmpty_nil, if_true]

theorem C6_empty_results_witness :
    trimWS (("hr").toList) = ("hr").toList ∧ ("hr").toList ≠ ([] : List Char) ∧
    rtvEmpty (("hr").toList) = [] ∧
    (flask_answer rtvEmpty chtErr (some (("hr").toList)) = (FlaskResp.ok FIXED [], 1, 0)
      ∧ rag_answer rtvEmpty chtErr (("hr").toList) = (FIXED, 0)) :=
  ⟨by decide, by decide, rfl,
    C6_empty_results rtvEmpty chtErr (("hr").toList) (by decide) (by decide) rfl⟩

/-- C8: a missing or whitespace-only query field yields the 400 response
with body error "Query is required", with zero retriever calls (and zero
chat calls). -/
theorem C8_blank_query_rejected (retrieve : List Char → List SearchResult)
    (chat : List Char → List Char → Except (List Char) (List Char))
    (queryField : Option (List Char))
    (h : trimWS (queryField.getD []) = []) :
    flask_answer retrieve chat queryField =
      (FlaskResp.badRequest queryRequired, 0, 0) := by
  unfold flask_answer
  simp only [h, List.isEmpty_nil, if_true]

theorem C8_blank_query_rejected_witness :
    trimWS ((some (("  ").toList)).getD []) = [] ∧
    flask_answer rtvEmpty chtErr (some (("  ").toList)) =
      (FlaskResp.badRequest queryRequired, 0, 0) :=
  ⟨by decide, C8_blank_query_rejected rtvEmpty chtErr (some (("  ").toList)) (by decide)⟩

/-- C5 counterexample: with query "alpha", one retrieved result whose
content is "alpha beta" and a 1-word model answer, the first (and only)
matching context sentence is "alpha beta", but the composer returns the
formatted string "Here’s what I found: alpha beta." — not the sentence
itself, contradicting the claim that it returns the first matching
sentence. -/
theorem C5_fallback_counterexample :
    (relevantSentences (("alpha").toList)
        (List.intercalate (("\n\n").toList)
          ((rtvOne (("alpha").toList)).map (fun d => d.content)))).headD [] =
      ("alpha beta").toList
    ∧ (flask_answer rtvOne chtShort (some (("alpha").toList))).1 =
      FlaskResp.ok (("Here’s what I found: alpha beta.").toList) [("a.pdf").toList]
    ∧ ("Here’s what I found: alpha beta.").toList ≠ ("alpha beta").toList := by
  decide

/-- C5 amended: when the model's answer has fewer than 10
whitespace-separated words, both composers discard it and answer with
"Here’s what I found: " followed by the stripped first context sentence
(context split on periods) containing a query word case-insensitively and a
closing period, or with the fixed sentence when no sentence matches (the
CLI then appends its sources block). -/
theorem C5_fallback_amended (retrieve : List Char → List SearchResult)
    (chat : List Char → List Char → Except (List Char) (List Char))
    (q : List Char) (results : List SearchResult)
    (hq : trimWS q = q) (hne : q ≠ [])
    (hr : retrieve q = results) (hres : results ≠ [])
    (hshort : (words (generate_answer chat q
        (List.intercalate (("\n\n").toList)
          (results.map (fun d => d.content)))).1).length < 10) :
    (flask_answer retrieve chat (some q)).1 =
      FlaskResp.ok
        (match relevantSentences q
            (List.intercalate (("\n\n").toList) (results.map (fun d => d.content))) with
          | s :: _ => foundIntro ++ trimWS s ++ [('.')]
          | [] => FIXED)
        ((results.map (fun d => d.source)).dedup)
    ∧ (rag_answer retrieve chat q).1 =
      (match relevantSentences q
          (List.intercalate (("\n\n").toList) (results.map (fun d => d.content))) with
        | s :: _ => foundIntro ++ trimWS s ++ [('.')]
        | [] => FIXED)
        ++ sourcesHeader ++
        List.intercalate (("\n").toList) (results.map (fun d => d.source)) := by
  have hq0 : q.isEmpty = false := by
    cases q with
    | nil => exact absurd rfl hne
    | cons a l => rfl
  have hres0 : results.isEmpty = false := by
    cases results with
    | nil => exact absurd rfl hres
    | cons a l => rfl
  constructor
  · unfold flask_answer
    simp only [Option.getD_some, hq, hq0, hr, hres0, Bool.false_eq_true, if_false]
    unfold fallbackAnswer
    rw [if_pos hshort]
  · unfold rag_answer
    simp only [hr, hres0, Bool.false_eq_true, if_false]
    unfold fallbackAnswer
    rw [if_pos hshort]

theorem C5_fallback_amended_witness :
    trimWS (("alpha").toList) = ("alpha").toList ∧ ("alpha").toList ≠ ([] : List Char) ∧
    rtvOne (("alpha").toList) ≠ [] ∧
    (words (generate_answer chtShort (("alpha").toList)
        (List.intercalate (("\n\n").toList)
          ((rtvOne (("alpha").toList)).map (fun d => d.content)))).1).length < 10 ∧
    (flask_answer rtvOne chtShort (some (("alpha").toList))).1 =
      FlaskResp.ok
        (match relevantSentences (("alpha").toList)
            (List.intercalate (("\n\n").toList)
              ((rtvOne (("alpha").toList)).map (fun d => d.content))) with
          | s :: _ => foundIntro ++ trimWS s ++ [('.')]
          | [] => FIXED)
        (((rtvOne (("alpha").toList)).map (fun d => d.source)).dedup) :=
  ⟨by decide, by decide, by decide, by decide,
    (C5_fallback_amended rtvOne chtShort (("alpha").toList) (rtvOne (("alpha").toList))
      (by decide) (by decide) rfl (by decide) (by decide)).1⟩

/-- C9 counterexample: with two results sharing the source "a.pdf", the
CLI's appended sources block lists "a.pdf" twice — it is not the
deduplicated collection, contradicting the claim for the CLI presentation
mode. -/
theorem C9_sources_counterexample :
    (rag_answer rtvDup chtLong (("alpha").toList)).1 =
      ("w1 w2 w3 w4 w5 w6 w7 w8 w9 w10").toList ++ sourcesHeader ++
        ("a.pdf\na.pdf").toList
    ∧ ((rtvDup (("alpha").toList)).map (fun d => d.source)).dedup = [("a.pdf").toList]
    ∧ ("a.pdf\na.pdf").toList ≠
        List.intercalate (("\n").toList) [("a.pdf").toList] := by
  decide

/-- C9 amended: for non-empty results, the HTTP API's sources array is the
deduplicated collection of the results' source fields (duplicate-free,
same members), while the CLI appends a "**Sources:**" block listing each
result's source verbatim, duplicates included. -/
theorem C9_sources_amended (retrieve : List Char → List SearchResult)
    (chat : List Char → List Char → Except (List Char) (List Char))
    (q : List Char) (results : List SearchResult)
    (hq : trimWS q = q) (hne : q ≠ [])
    (hr : retrieve q = results) (hres : results ≠ []) :
    respSources (flask_answer retrieve chat (some q)).1 =
      (results.map (fun d => d.source)).dedup
    ∧ (respSources (flask_answer retrieve chat (some q)).1).Nodup
    ∧ (respSources (flask_answer retrieve chat (some q)).1).toFinset =
        (results.map (fun d => d.source)).toFinset
    ∧ (rag_answer retrieve chat q).1 =
        (fallbackAnswer q
          (List.intercalate (("\n\n").toList) (results.map (fun d => d.content)))
          (generate_answer chat q
            (List.intercalate (("\n\n").toList) (results.map (fun d => d.content)))).1)
        ++ sourcesHeader ++
        List.intercalate (("\n").toList) (results.map (fun d => d.source)) := by
  have hq0 : q.isEmpty = false := by
    cases q with
    | nil => exact absurd rfl hne
    | cons a l => rfl
  have hres0 : results.isEmpty = false := by
    cases results with
    | nil => exact absurd rfl hres
    | cons a l => rfl
  have hflask : respSources (flask_answer retrieve chat (some q)).1 =
      (results.map (fun d => d.source)).dedup := by
    unfold flask_answer
    simp only [Option.getD_some, hq, hq0, hr, hres0, Bool.false_eq_true, if_false]
    rfl
  refine ⟨hflask, ?_, ?_, ?_⟩
  · rw [hflask]
    exact List.nodup_dedup _
  · rw [hflask]
    ext x
    simp [List.mem_toFinset, List.mem_dedup]
  · unfold rag_answer
    simp only [hr, hres0, Bool.false_eq_true, if_false]

theorem C9_sources_amended_witness :
    trimWS (("alpha").toList) = ("alpha").toList ∧ ("alpha").toList ≠ ([] : List Char) ∧
    rtvDup (("alpha").toList) ≠ [] ∧
    respSources (flask_answer rtvDup chtLong (some (("alpha").toList))).1 =
      (((rtvDup (("alpha").toList)).map (fun d => d.source)).dedup) :=
  ⟨by decide, by decide, by decide,
    (C9_sources_amended rtvDup chtLong (("alpha").toList) (rtvDup (("alpha").toList))
      (by decide) (by decide) rfl (by decide)).1⟩

/-- C10: `generate_answer` returns the fixed sentence with zero chat-model
calls whenever the context is empty or contains the substring
"No relevant documents" — even a non-empty context containing that phrase
is never sent to the chat model. -/
theorem C10_no_relevant_shortcircuit
    (chat : List Char → List Char → Except (List Char) (List Char))
    (query context : List Char)
    (h : context = [] ∨ containsSub (("No relevant documents").toList) context = true) :
    generate_answer chat query context = (FIXED, 0) := by
  unfold generate_answer
  rcases h with h | h
  · subst h
    simp
  · rw [h]
    simp

theorem C10_no_relevant_shortcircuit_witness :
    containsSub (("No relevant documents").toList)
        (("see No relevant documents here").toList) = true ∧
    generate_answer chtErr (("q").toList)
        (("see No relevant documents here").toList) = (FIXED, 0) :=
  ⟨by decide,
    C10_no_relevant_shortcircuit chtErr (("q").toList)
      (("see No relevant documents here").toList) (Or.inr (by decide))⟩
